import Mathlib

/-!
Shallow embedding of the POS multi-unit stock model (`src/app/models.py`)
together with the service operations of the specification (Stock Ledger,
Line Item Calculator, Transaction Aggregator) that the model file only
declares schemas for.

Money is an exact count of minor units (cents), embedded as `Int`;
Python `Decimal` arithmetic on such values is exact, so `Int` addition,
subtraction and multiplication model it faithfully.  Python `int` is
embedded as `Int`; schema constraints such as `gt=0` or `ge=0` become
explicit hypotheses where a claim needs them.
-/

namespace POS

/-- Money: exact decimal value with 2 fractional digits, embedded as an
integer count of cents. -/
abbrev Money := Int

/-- `UnitType` enumeration from `models.py`: `ECER` (retail base unit) and
`GROSIR` (wholesale pack). -/
inductive UnitType where
  | ECER : UnitType
  | GROSIR : UnitType
deriving DecidableEq, Repr

/-- `TransactionStatus` enumeration from `models.py`. -/
inductive TransactionStatus where
  | PENDING : TransactionStatus
  | COMPLETED : TransactionStatus
  | CANCELLED : TransactionStatus
deriving DecidableEq, Repr

/-- The fields of `Item` (from `models.py`) that the pricing and stock
engine reads or writes.  Identity, category and timestamp fields are
omitted: no claim mentions them. -/
structure Item where
  wholesale_cost_price : Money := 0
  wholesale_selling_price : Money := 0
  quantity_per_wholesale : Int := 1
  retail_cost_price : Money := 0
  retail_selling_price : Money := 0
  stock_quantity : Int := 0
  minimum_stock : Int := 0
deriving DecidableEq, Repr

/-- `Item.get_price_by_unit`: selling price selected by unit type. -/
def Item.get_price_by_unit (item : Item) (unit_type : UnitType) : Money :=
  if unit_type = UnitType.GROSIR then item.wholesale_selling_price
  else item.retail_selling_price

/-- `Item.convert_to_ecer_quantity`: convert a sale quantity to Ecer
(base) units. -/
def Item.convert_to_ecer_quantity (item : Item) (quantity : Int)
    (unit_type : UnitType) : Int :=
  if unit_type = UnitType.GROSIR then quantity * item.quantity_per_wholesale
  else quantity

/-- `Item.can_fulfill_order`: stock-sufficiency check. -/
def Item.can_fulfill_order (item : Item) (quantity : Int)
    (unit_type : UnitType) : Bool :=
  let required_ecer_quantity := item.convert_to_ecer_quantity quantity unit_type
  item.stock_quantity ≥ required_ecer_quantity

/-- The fields of `TransactionItem` (from `models.py`) used by the engine.
`item_id`, `transaction_id` and timestamps are omitted: the single-item
world below resolves the line's item directly. -/
structure TransactionItem where
  quantity : Int
  unit_type : UnitType := UnitType.ECER
  unit_price : Money := 0
  total_price : Money := 0
  ecer_quantity : Int := 0
deriving DecidableEq, Repr

/-- `TransactionItem.calculate_totals`: snapshot the unit price from the
item and derive `total_price` and `ecer_quantity`. -/
def TransactionItem.calculate_totals (ti : TransactionItem) (item : Item) :
    TransactionItem :=
  let up := item.get_price_by_unit ti.unit_type
  { ti with
      unit_price := up
      total_price := ti.quantity * up
      ecer_quantity := item.convert_to_ecer_quantity ti.quantity ti.unit_type }

/-- The fields of `Transaction` (from `models.py`) used by the engine. -/
structure Transaction where
  subtotal : Money := 0
  tax_amount : Money := 0
  discount_amount : Money := 0
  total_amount : Money := 0
  payment_amount : Money := 0
  change_amount : Money := 0
  status : TransactionStatus := TransactionStatus.PENDING
  transaction_items : List TransactionItem := []
deriving DecidableEq, Repr

/-- `Transaction.calculate_totals`: recompute `subtotal` from the current
line items, then `total_amount` and `change_amount`. -/
def Transaction.calculate_totals (t : Transaction) : Transaction :=
  let subtotal := (t.transaction_items.map (fun item => item.total_price)).sum
  let total_amount := subtotal + t.tax_amount - t.discount_amount
  { t with
      subtotal := subtotal
      total_amount := total_amount
      change_amount := max 0 (t.payment_amount - total_amount) }

/-- `StockMovement` ledger entry schema from `models.py` (engine fields). -/
structure StockMovement where
  movement_type : String
  quantity_change : Int
  previous_stock : Int
  new_stock : Int
deriving DecidableEq, Repr

/-- The error kinds of spec §7. -/
inductive POSError where
  | InvalidQuantity : POSError
  | InsufficientStock : POSError
  | NegativeStockError : POSError
  | InvalidPayment : POSError
  | InvalidStateTransition : POSError
deriving DecidableEq, Repr

/-- State of the Stock Ledger for one catalog item: the item (whose
`stock_quantity` the ledger is the sole writer of) and the append-only
list of movement entries. -/
structure LedgerState where
  item : Item
  ledger : List StockMovement
deriving DecidableEq, Repr

/-- Modelled from the spec: the Stock Ledger operation `apply_movement`
(§4.4) is not present under `src/` — only the `StockMovement` schema is.
Reads `previous_stock`, computes `new_stock = previous_stock +
quantity_change`, rejects with `NegativeStockError` when `new_stock < 0`
(returning the state unchanged, no entry written), otherwise writes the
new stock and appends one immutable ledger entry. -/
def apply_movement (st : LedgerState) (movement_type : String)
    (quantity_change : Int) : LedgerState × Option POSError :=
  let previous_stock := st.item.stock_quantity
  let new_stock := previous_stock + quantity_change
  if new_stock < 0 then (st, some POSError.NegativeStockError)
  else
    ({ item := { st.item with stock_quantity := new_stock }
       ledger := st.ledger ++
         [{ movement_type := movement_type
            quantity_change := quantity_change
            previous_stock := previous_stock
            new_stock := new_stock }] }, none)

/-- Modelled from the spec: the Line Item Calculator (§4.3) is not present
under `src/` — only its output computation `TransactionItem.calculate_totals`
is.  Fails with `InvalidQuantity` when `quantity ≤ 0`, with
`InsufficientStock` when the item cannot fulfill the order, and otherwise
produces the line item computed by `TransactionItem.calculate_totals`. -/
def calculate_line_item (item : Item) (quantity : Int)
    (unit_type : UnitType) : Except POSError TransactionItem :=
  if quantity ≤ 0 then Except.error POSError.InvalidQuantity
  else if ¬ (item.can_fulfill_order quantity unit_type) then
    Except.error POSError.InsufficientStock
  else
    Except.ok (TransactionItem.calculate_totals
      { quantity := quantity, unit_type := unit_type } item)

/-- A world for the Transaction Aggregator: one transaction being built
and the Stock Ledger state of the (single) catalog item its lines sell.
Every line of the transaction references this item, so line `ecer_quantity`
debits apply to `stock.item`. -/
structure World where
  txn : Transaction
  stock : LedgerState
deriving DecidableEq, Repr

/-- Modelled from the spec: `add_line` (§4.5) is not present under `src/`.
Valid only while Pending; delegates to the Line Item Calculator, appends
the line on success and recomputes totals fresh via
`Transaction.calculate_totals`; leaves the world unchanged on failure. -/
def World.add_line (w : World) (quantity : Int) (unit_type : UnitType) :
    World × Option POSError :=
  if w.txn.status ≠ TransactionStatus.PENDING then
    (w, some POSError.InvalidStateTransition)
  else
    match calculate_line_item w.stock.item quantity unit_type with
    | Except.error e => (w, some e)
    | Except.ok li =>
        let t := { w.txn with
          transaction_items := w.txn.transaction_items ++ [li] }
        ({ w with txn := t.calculate_totals }, none)

/-- Modelled from the spec: `finalize` (§4.5) is not present under `src/`.
Valid only while Pending with at least one line; sets the externally
supplied tax, discount and payment, recomputes totals, and fails with
`InvalidPayment` when `payment_amount < total_amount` — per §7 the failure
leaves the in-memory model unchanged; it never changes the status. -/
def World.finalize (w : World) (tax_amount discount_amount payment_amount :
    Money) : World × Option POSError :=
  if w.txn.status ≠ TransactionStatus.PENDING then
    (w, some POSError.InvalidStateTransition)
  else if w.txn.transaction_items.isEmpty then
    (w, some POSError.InvalidStateTransition)
  else
    let t := Transaction.calculate_totals
      { w.txn with
          tax_amount := tax_amount
          discount_amount := discount_amount
          payment_amount := payment_amount }
    if t.payment_amount < t.total_amount then
      (w, some POSError.InvalidPayment)
    else ({ w with txn := t }, none)

/-- Modelled from the spec: the per-line debit loop of `commit` (§4.5).
Debits lines in order with `movement_type = "SALE"` and `quantity_change =
-ecer_quantity`; on a `NegativeStockError` it stops, keeping the debits
already applied for earlier lines (no automatic rollback). -/
def commit_lines (st : LedgerState) :
    List TransactionItem → LedgerState × Option POSError
  | [] => (st, none)
  | li :: rest =>
      match apply_movement st "SALE" (-li.ecer_quantity) with
      | (st', none) => commit_lines st' rest
      | (st', some e) => (st', some e)

/-- Modelled from the spec: `commit` (§4.5) is not present under `src/`.
Valid only while Pending; debits every line through the Stock Ledger and
transitions to Completed only when all debits succeed; on any failed debit
the transaction stays Pending. -/
def World.commit (w : World) : World × Option POSError :=
  if w.txn.status ≠ TransactionStatus.PENDING then
    (w, some POSError.InvalidStateTransition)
  else
    match commit_lines w.stock w.txn.transaction_items with
    | (st', none) =>
        ({ txn := { w.txn with status := TransactionStatus.COMPLETED }
           stock := st' }, none)
    | (st', some e) => ({ w with stock := st' }, some e)

/-- Modelled from the spec: `cancel` (§4.5) is not present under `src/`.
Valid from Pending only; transitions to Cancelled; once Completed or
Cancelled it is rejected with `InvalidStateTransition` and performs no
stock reversal. -/
def World.cancel (w : World) : World × Option POSError :=
  if w.txn.status = TransactionStatus.PENDING then
    ({ w with txn := { w.txn with status := TransactionStatus.CANCELLED } },
      none)
  else (w, some POSError.InvalidStateTransition)

/-- The operations of the Transaction Aggregator (§4.5). -/
inductive Op where
  | add_line (quantity : Int) (unit_type : UnitType) : Op
  | finalize (tax_amount discount_amount payment_amount : Money) : Op
  | commit : Op
  | cancel : Op
deriving DecidableEq, Repr

/-- Dispatch one aggregator operation on a world. -/
def World.step (w : World) : Op → World × Option POSError
  | Op.add_line q u => w.add_line q u
  | Op.finalize t d p => w.finalize t d p
  | Op.commit => w.commit
  | Op.cancel => w.cancel

/-- A catalog price edit: replaces the item's selling prices and touches
nothing else (in particular not the stock, per §4.4, and not the
transaction or its lines). -/
def World.set_item_prices (w : World)
    (retail_selling_price wholesale_selling_price : Money) : World :=
  { w with stock := { w.stock with item :=
      { w.stock.item with
          retail_selling_price := retail_selling_price
          wholesale_selling_price := wholesale_selling_price } } }

/-- A transaction status is terminal when it is Completed or Cancelled. -/
def TransactionStatus.terminal : TransactionStatus → Bool
  | TransactionStatus.PENDING => false
  | TransactionStatus.COMPLETED => true
  | TransactionStatus.CANCELLED => true

/-! ## Helper lemmas -/

theorem terminal_iff_ne_pending (s : TransactionStatus) :
    s.terminal = true ↔ s ≠ TransactionStatus.PENDING := by
  cases s <;> simp [TransactionStatus.terminal]

theorem step_of_ne_pending (w : World) (op : Op)
    (h : w.txn.status ≠ TransactionStatus.PENDING) :
    World.step w op = (w, some POSError.InvalidStateTransition) := by
  cases op <;>
    simp [World.step, World.add_line, World.finalize, World.commit,
      World.cancel, h]

/-! ## Claims -/

/-- C2: after `Transaction.calculate_totals`, `subtotal` equals the sum of
`total_price` over all current line items (recomputed fresh from the
list), `total_amount = subtotal + tax_amount - discount_amount`, and
`change_amount = max 0 (payment_amount - total_amount)`. -/
theorem transaction_calculate_totals_spec (t : Transaction) :
    (t.calculate_totals).subtotal =
      ((t.calculate_totals).transaction_items.map
        (fun li => li.total_price)).sum ∧
    (t.calculate_totals).total_amount =
      (t.calculate_totals).subtotal + (t.calculate_totals).tax_amount -
        (t.calculate_totals).discount_amount ∧
    (t.calculate_totals).change_amount =
      max 0 ((t.calculate_totals).payment_amount -
        (t.calculate_totals).total_amount) := by
  simp [Transaction.calculate_totals]

/-- C3: for every item and quantity `q > 0`, converting to base units is
the identity in Retail (Ecer) mode and multiplies by
`quantity_per_wholesale` in Wholesale (Grosir) mode. -/
theorem convert_to_ecer_quantity_spec (item : Item) (q : Int) (_hq : 0 < q) :
    item.convert_to_ecer_quantity q UnitType.ECER = q ∧
    item.convert_to_ecer_quantity q UnitType.GROSIR =
      q * item.quantity_per_wholesale := by
  simp [Item.convert_to_ecer_quantity]

/-- Witness for C3 at `q = 3`, `quantity_per_wholesale = 5`. -/
theorem convert_to_ecer_quantity_spec_witness :
    ({ quantity_per_wholesale := 5 } : Item).convert_to_ecer_quantity 3
        UnitType.ECER = 3 ∧
    ({ quantity_per_wholesale := 5 } : Item).convert_to_ecer_quantity 3
        UnitType.GROSIR = 3 * ({ quantity_per_wholesale := 5 } :
          Item).quantity_per_wholesale :=
  convert_to_ecer_quantity_spec { quantity_per_wholesale := 5 } 3
    (by decide)

/-- C8: `can_fulfill_order` returns true exactly when the stock covers the
base-unit conversion of the requested quantity; as a pure function of the
item it mutates nothing, so repeated calls on the same item agree. -/
theorem can_fulfill_order_spec (item : Item) (q : Int) (u : UnitType) :
    (item.can_fulfill_order q u = true ↔
      item.convert_to_ecer_quantity q u ≤ item.stock_quantity) ∧
    item.can_fulfill_order q u = item.can_fulfill_order q u := by
  refine ⟨?_, rfl⟩
  simp [Item.can_fulfill_order, ge_iff_le]

/-- C10: recomputing totals always yields `change_amount ≥ 0`, but
`total_amount` is unbounded below: whenever the discount exceeds the
recomputed subtotal plus tax the total goes negative, including on an
empty line-item collection where the subtotal is recomputed as 0. -/
theorem calculate_totals_change_clamped_total_unbounded (t : Transaction) :
    0 ≤ (t.calculate_totals).change_amount ∧
    ((t.transaction_items.map (fun li => li.total_price)).sum +
        t.tax_amount < t.discount_amount →
      (t.calculate_totals).total_amount < 0) ∧
    (t.transaction_items = [] →
      (t.calculate_totals).subtotal = 0 ∧
      (t.tax_amount < t.discount_amount →
        (t.calculate_totals).total_amount < 0)) := by
  refine ⟨?_, ?_, ?_⟩
  · simp [Transaction.calculate_totals]
  · intro h
    simp [Transaction.calculate_totals]
    linarith
  · intro h
    refine ⟨by simp [Transaction.calculate_totals, h], ?_⟩
    intro h2
    simp [Transaction.calculate_totals, h]
    linarith

/-- Witness for C10: discount 100 against empty lines and zero tax gives
total -100 and change clamped at 0. -/
theorem calculate_totals_change_clamped_total_unbounded_witness :
    0 ≤ (({ discount_amount := 100 } : Transaction).calculate_totals).change_amount ∧
    ((({ discount_amount := 100 } : Transaction).transaction_items.map
        (fun li => li.total_price)).sum +
      ({ discount_amount := 100 } : Transaction).tax_amount <
        ({ discount_amount := 100 } : Transaction).discount_amount) ∧
    (({ discount_amount := 100 } : Transaction).calculate_totals).total_amount < 0 :=
  ⟨(calculate_totals_change_clamped_total_unbounded
      { discount_amount := 100 }).1,
   by decide,
   (calculate_totals_change_clamped_total_unbounded
      { discount_amount := 100 }).2.1 (by decide)⟩

/-- C1: `apply_movement` rejects with `NegativeStockError` exactly when
`previous_stock + quantity_change < 0`, returning the state unchanged
(item stock and ledger untouched, no entry appended); every successful
application satisfies `new_stock = previous_stock + quantity_change ≥ 0`
and appends exactly one entry recording the before/after snapshot, so
`stock_quantity` is never left negative. -/
theorem apply_movement_spec (st : LedgerState) (mt : String) (qc : Int) :
    (st.item.stock_quantity + qc < 0 →
      apply_movement st mt qc = (st, some POSError.NegativeStockError)) ∧
    (∀ st', apply_movement st mt qc = (st', none) →
      st'.item.stock_quantity = st.item.stock_quantity + qc ∧
      0 ≤ st'.item.stock_quantity ∧
      st'.ledger = st.ledger ++
        [{ movement_type := mt
           quantity_change := qc
           previous_stock := st.item.stock_quantity
           new_stock := st.item.stock_quantity + qc }]) := by
  constructor
  · intro h
    simp [apply_movement, h]
  · intro st' h
    by_cases hneg : st.item.stock_quantity + qc < 0
    · simp [apply_movement, hneg] at h
    · simp [apply_movement, hneg] at h
      subst h
      refine ⟨rfl, ?_, rfl⟩
      show (0 : Int) ≤ st.item.stock_quantity + qc
      omega

/-- Witness for C1: stock 10, debit 15 is rejected with the state
unchanged; stock 10, debit 5 succeeds with new stock 5. -/
theorem apply_movement_spec_witness :
    apply_movement { item := { stock_quantity := 10 }, ledger := [] }
        "SALE" (-15) =
      ({ item := { stock_quantity := 10 }, ledger := [] },
        some POSError.NegativeStockError) ∧
    (apply_movement { item := { stock_quantity := 10 }, ledger := [] }
        "SALE" (-5)).1.item.stock_quantity = 10 + (-5) :=
  ⟨(apply_movement_spec { item := { stock_quantity := 10 }, ledger := [] }
      "SALE" (-15)).1 (by decide),
   ((apply_movement_spec { item := { stock_quantity := 10 }, ledger := [] }
      "SALE" (-5)).2 _ (by decide)).1⟩

/-- C4: the Line Item Calculator fails with `InvalidQuantity` whenever the
requested quantity is ≤ 0, fails with `InsufficientStock` whenever the
item cannot fulfill the request in the chosen unit mode, and produces a
line item exactly when neither condition holds. -/
theorem calculate_line_item_errors (item : Item) (q : Int) (u : UnitType) :
    (q ≤ 0 →
      calculate_line_item item q u = Except.error POSError.InvalidQuantity) ∧
    (0 < q → item.can_fulfill_order q u = false →
      calculate_line_item item q u =
        Except.error POSError.InsufficientStock) ∧
    ((∃ li, calculate_line_item item q u = Except.ok li) ↔
      0 < q ∧ item.can_fulfill_order q u = true) := by
  refine ⟨?_, ?_, ?_, ?_⟩
  · intro h1
    simp [calculate_line_item, h1]
  · intro h1 h2
    have h1' : ¬ q ≤ 0 := by omega
    simp [calculate_line_item, h1', h2]
  · rintro ⟨li, h⟩
    by_cases h1 : q ≤ 0
    · simp [calculate_line_item, h1] at h
    · by_cases h2 : item.can_fulfill_order q u
      · exact ⟨by omega, h2⟩
      · simp [calculate_line_item, h1, h2] at h
  · rintro ⟨h1, h2⟩
    have h1' : ¬ q ≤ 0 := by omega
    exact ⟨TransactionItem.calculate_totals
        { quantity := q, unit_type := u } item,
      by simp [calculate_line_item, h1', h2]⟩

/-- Witness for C4: with stock 10 and 5 base units per pack, quantity 0 is
rejected as `InvalidQuantity` and 3 wholesale packs (15 base units) as
`InsufficientStock`. -/
theorem calculate_line_item_errors_witness :
    calculate_line_item
        { quantity_per_wholesale := 5, stock_quantity := 10 } 0
        UnitType.GROSIR = Except.error POSError.InvalidQuantity ∧
    calculate_line_item
        { quantity_per_wholesale := 5, stock_quantity := 10 } 3
        UnitType.GROSIR = Except.error POSError.InsufficientStock :=
  ⟨(calculate_line_item_errors
      { quantity_per_wholesale := 5, stock_quantity := 10 } 0
      UnitType.GROSIR).1 (by decide),
   (calculate_line_item_errors
      { quantity_per_wholesale := 5, stock_quantity := 10 } 3
      UnitType.GROSIR).2.1 (by decide) (by decide)⟩

/-- C7: every line item produced by the calculator has
`unit_price = item.get_price_by_unit u` (the wholesale selling price in
Grosir mode, the retail selling price in Ecer mode),
`total_price = quantity * unit_price`,
`ecer_quantity = item.convert_to_ecer_quantity quantity u`, and
`ecer_quantity > 0` whenever `quantity_per_wholesale > 0` (the produced
quantity is already > 0). -/
theorem calculate_line_item_fields (item : Item) (q : Int) (u : UnitType)
    (li : TransactionItem)
    (h : calculate_line_item item q u = Except.ok li) :
    li.unit_price = item.get_price_by_unit u ∧
    (u = UnitType.GROSIR → li.unit_price = item.wholesale_selling_price) ∧
    (u = UnitType.ECER → li.unit_price = item.retail_selling_price) ∧
    li.total_price = q * li.unit_price ∧
    li.ecer_quantity = item.convert_to_ecer_quantity q u ∧
    (0 < item.quantity_per_wholesale → 0 < li.ecer_quantity) := by
  by_cases h1 : q ≤ 0
  · simp [calculate_line_item, h1] at h
  · by_cases h2 : item.can_fulfill_order q u
    · simp [calculate_line_item, h1, h2] at h
      subst h
      refine ⟨rfl, ?_, ?_, rfl, rfl, ?_⟩
      · intro hu
        subst hu
        simp [TransactionItem.calculate_totals, Item.get_price_by_unit]
      · intro hu
        subst hu
        simp [TransactionItem.calculate_totals, Item.get_price_by_unit]
      · intro hw
        have hq : 0 < q := by omega
        cases u with
        | ECER =>
            simpa [TransactionItem.calculate_totals,
              Item.convert_to_ecer_quantity] using hq
        | GROSIR =>
            simpa [TransactionItem.calculate_totals,
              Item.convert_to_ecer_quantity] using mul_pos hq hw
    · simp [calculate_line_item, h1, h2] at h

/-- Witness for C7: one wholesale pack of an item with 5 base units per
pack and stock 10 yields a line item with positive base quantity. -/
theorem calculate_line_item_fields_witness :
    0 < (TransactionItem.calculate_totals
        { quantity := 1, unit_type := UnitType.GROSIR }
        { wholesale_selling_price := 450, quantity_per_wholesale := 5,
          retail_selling_price := 100,
          stock_quantity := 10 }).ecer_quantity :=
  (calculate_line_item_fields
    { wholesale_selling_price := 450, quantity_per_wholesale := 5,
      retail_selling_price := 100, stock_quantity := 10 }
    1 UnitType.GROSIR _ rfl).2.2.2.2.2 (by decide)

/-- C5: on a Pending transaction with at least one line, `finalize` fails
with `InvalidPayment` whenever the supplied payment is below the
recomputed `total_amount`, leaving the world (transaction and stock)
unchanged; in every case the resulting status is still Pending and the
stock is untouched — `finalize` never changes status or debits stock. -/
theorem finalize_invalid_payment (w : World) (tax d p : Money)
    (hs : w.txn.status = TransactionStatus.PENDING)
    (hne : w.txn.transaction_items ≠ []) :
    (p < (Transaction.calculate_totals
        { w.txn with
            tax_amount := tax
            discount_amount := d
            payment_amount := p }).total_amount →
      w.finalize tax d p = (w, some POSError.InvalidPayment)) ∧
    (w.finalize tax d p).1.txn.status = TransactionStatus.PENDING ∧
    (w.finalize tax d p).1.stock = w.stock := by
  have hne' : w.txn.transaction_items.isEmpty = false :=
    List.isEmpty_eq_false.mpr hne
  refine ⟨?_, ?_, ?_⟩
  · intro hp
    simp only [World.finalize, hs, hne']
    simp only [Transaction.calculate_totals] at hp ⊢
    simp
    linarith
  · simp only [World.finalize, hs, hne']
    simp [Transaction.calculate_totals]
    split
    · exact hs
    · simp [hs]
  · simp only [World.finalize, hs, hne']
    simp [Transaction.calculate_totals]
    split
    · rfl
    · simp

/-- Witness for C5: payment 10000 against a line of 15000, tax 1500,
discount 500 (total 16000) fails with `InvalidPayment`, world unchanged. -/
theorem finalize_invalid_payment_witness :
    World.finalize
        { txn := { transaction_items :=
            [{ quantity := 1, total_price := 15000 }] }
          stock := { item := {}, ledger := [] } } 1500 500 10000 =
      ({ txn := { transaction_items :=
            [{ quantity := 1, total_price := 15000 }] }
         stock := { item := {}, ledger := [] } },
        some POSError.InvalidPayment) :=
  (finalize_invalid_payment
    { txn := { transaction_items :=
        [{ quantity := 1, total_price := 15000 }] }
      stock := { item := {}, ledger := [] } }
    1500 500 10000 rfl (by decide)).1 (by decide)

theorem step_status_change (w : World) (op : Op)
    (h : (World.step w op).1.txn.status ≠ w.txn.status) :
    w.txn.status = TransactionStatus.PENDING ∧
    ((World.step w op).1.txn.status = TransactionStatus.COMPLETED ∨
      (World.step w op).1.txn.status = TransactionStatus.CANCELLED) := by
  by_cases hs : w.txn.status = TransactionStatus.PENDING
  · refine ⟨hs, ?_⟩
    cases op with
    | add_line q u =>
        exfalso
        apply h
        simp [World.step, World.add_line, hs]
        cases hcalc : calculate_line_item w.stock.item q u with
        | error e => simp [hcalc, hs]
        | ok li => simp [hcalc, Transaction.calculate_totals, hs]
    | finalize t d p =>
        exfalso
        apply h
        by_cases he : w.txn.transaction_items.isEmpty
        · simp [World.step, World.finalize, hs, he]
        · simp only [World.step, World.finalize, hs]
          simp [he, Transaction.calculate_totals, hs]
          split
          · exact hs
          · simp [hs]
    | commit =>
        cases hcl : commit_lines w.stock w.txn.transaction_items with
        | mk st' e =>
            cases e with
            | none => left; simp [World.step, World.commit, hs, hcl]
            | some err =>
                exfalso
                apply h
                simp [World.step, World.commit, hs, hcl]
    | cancel =>
        right
        simp [World.step, World.cancel, hs]
  · exfalso
    apply h
    rw [step_of_ne_pending w op hs]

theorem foldl_step_terminal (w : World)
    (h : w.txn.status.terminal = true) (ops : List Op) :
    ops.foldl (fun v o => (World.step v o).1) w = w := by
  induction ops with
  | nil => rfl
  | cons o rest ih =>
      rw [List.foldl_cons]
      have h2 : (World.step w o).1 = w := by
        rw [step_of_ne_pending w o ((terminal_iff_ne_pending _).mp h)]
      rw [h2]
      exact ih

/-- C6: the transaction status is a finite state machine whose only
transitions are Pending → Completed and Pending → Cancelled; on a terminal
status (Completed or Cancelled) every aggregator operation is rejected
with `InvalidStateTransition` and leaves the world — transaction, item
stock and ledger — unchanged, so no operation sequence ever leaves a
terminal state; in particular `cancel` on a Completed transaction is
rejected and reverses no stock. -/
theorem transaction_status_fsm (w : World) (op : Op) :
    (w.txn.status.terminal = true →
      World.step w op = (w, some POSError.InvalidStateTransition)) ∧
    ((World.step w op).1.txn.status ≠ w.txn.status →
      w.txn.status = TransactionStatus.PENDING ∧
      ((World.step w op).1.txn.status = TransactionStatus.COMPLETED ∨
        (World.step w op).1.txn.status = TransactionStatus.CANCELLED)) ∧
    (w.txn.status.terminal = true → ∀ ops : List Op,
      ops.foldl (fun v o => (World.step v o).1) w = w) ∧
    (w.txn.status = TransactionStatus.COMPLETED →
      World.step w Op.cancel = (w, some POSError.InvalidStateTransition)) :=
  ⟨fun h => step_of_ne_pending w op ((terminal_iff_ne_pending _).mp h),
   step_status_change w op,
   fun h ops => foldl_step_terminal w h ops,
   fun h => step_of_ne_pending w Op.cancel (by simp [h])⟩

/-- Witness for C6: `cancel` on a Completed transaction is rejected with
`InvalidStateTransition` and the world, including stock, is unchanged. -/
theorem transaction_status_fsm_witness :
    World.step
        { txn := { status := TransactionStatus.COMPLETED }
          stock := { item := { stock_quantity := 5 }, ledger := [] } }
        Op.cancel =
      ({ txn := { status := TransactionStatus.COMPLETED }
         stock := { item := { stock_quantity := 5 }, ledger := [] } },
        some POSError.InvalidStateTransition) :=
  (transaction_status_fsm
    { txn := { status := TransactionStatus.COMPLETED }
      stock := { item := { stock_quantity := 5 }, ledger := [] } }
    Op.cancel).2.2.2 rfl

/-- C9: line items are snapshots — no aggregator operation rewrites an
existing line (in particular its `unit_price` or `total_price`): every
already-present position of the line-item list is preserved by `step`;
a catalog price edit leaves the transaction and all its lines untouched;
and the totals recomputation `Transaction.calculate_totals` never
modifies the line items themselves. -/
theorem line_item_snapshot_immutable (w : World) (op : Op) (i : ℕ)
    (hi : i < w.txn.transaction_items.length) :
    (World.step w op).1.txn.transaction_items.get? i =
      w.txn.transaction_items.get? i ∧
    (∀ r wp : Money, (World.set_item_prices w r wp).txn = w.txn) ∧
    (w.txn.calculate_totals).transaction_items = w.txn.transaction_items := by
  refine ⟨?_, fun r wp => rfl, rfl⟩
  by_cases hs : w.txn.status = TransactionStatus.PENDING
  · cases op with
    | add_line q u =>
        simp [World.step, World.add_line, hs]
        cases hcalc : calculate_line_item w.stock.item q u with
        | error e => simp [hcalc]
        | ok li =>
            simp [hcalc, Transaction.calculate_totals]
            exact List.getElem?_append_left hi
    | finalize t d p =>
        by_cases he : w.txn.transaction_items.isEmpty
        · simp [World.step, World.finalize, hs, he]
        · simp only [World.step, World.finalize, hs]
          simp [he, Transaction.calculate_totals]
          split
          · rfl
          · simp
    | commit =>
        cases hcl : commit_lines w.stock w.txn.transaction_items with
        | mk st' e =>
            cases e with
            | none => simp [World.step, World.commit, hs, hcl]
            | some err => simp [World.step, World.commit, hs, hcl]
    | cancel => simp [World.step, World.cancel, hs]
  · rw [step_of_ne_pending w op hs]

/-- Witness for C9: cancelling a pending transaction leaves its single
line item in place. -/
theorem line_item_snapshot_immutable_witness :
    (World.step
        { txn := { transaction_items :=
            [{ quantity := 2, unit_price := 700, total_price := 1400 }] }
          stock := { item := {}, ledger := [] } }
        Op.cancel).1.txn.transaction_items.get? 0 =
      ({ txn := { transaction_items :=
            [{ quantity := 2, unit_price := 700, total_price := 1400 }] }
         stock := { item := {}, ledger := [] } } :
          World).txn.transaction_items.get? 0 :=
  (line_item_snapshot_immutable
    { txn := { transaction_items :=
        [{ quantity := 2, unit_price := 700, total_price := 1400 }] }
      stock := { item := {}, ledger := [] } }
    Op.cancel 0 (by decide)).1

end POS
